import Mathlib

/-!
Shallow embedding of the FinGuide budget/goals page and its dialogs.

Sources embedded:
- the Budget & Goals page component (state handlers `handleSaveBudget`,
  `handleConfirmDeleteBudget`, `handleSaveGoal`, `handleConfirmDeleteGoal`,
  `handleAddSavings`, and the computed totals and progress-bar widths);
- `BudgetFormDialog` and `GoalFormDialog` (form state, validation, and the
  record built in `handleSubmit`);
- `AddSavingsDialog` (the preview percentage and the submit guard).

Modelling conventions:
- JavaScript numbers are modelled as rationals (ℚ); the page only adds,
  sums and divides currency amounts.
- The value of an `<input type="number">` is modelled as `Option ℚ`:
  `none` is the empty string (the browser keeps only valid numeric strings
  in a number input, so a non-empty value always parses), `some q` a
  non-empty value parsing to `q`.
- JavaScript `x || d` on a number is `jsOrQ x d` (`0` and `NaN` are falsy;
  an empty numeric field stands for the `NaN` case), and on a string it is
  `jsOrString x d` (`""` is falsy).
- `a / 0 = 0` in ℚ where the page would produce `NaN`/`Infinity`.
-/

namespace FinGuide

/-- The `Budget` interface of `BudgetFormDialog`:
`id`, `category`, `emoji`, `spent`, `limit`, `color`. -/
structure Budget where
  id : String
  category : String
  emoji : String
  spent : ℚ
  limit : ℚ
  color : String
  deriving DecidableEq, Repr

/-- The `Goal` interface of `GoalFormDialog`:
`id`, `title`, `emoji`, `saved`, `target`, `deadline`. -/
structure Goal where
  id : String
  title : String
  emoji : String
  saved : ℚ
  target : ℚ
  deadline : String
  deriving DecidableEq, Repr

/-- Source: `INITIAL_BUDGETS` from the budget page. -/
def INITIAL_BUDGETS : List Budget :=
  [ { id := "1", category := "Food & Dining", emoji := "🍔", spent := 12500, limit := 15000, color := "bg-warning" },
    { id := "2", category := "Transport", emoji := "🚗", spent := 5500, limit := 6000, color := "bg-info" },
    { id := "3", category := "Shopping", emoji := "🛍️", spent := 8000, limit := 12000, color := "bg-purple-accent" },
    { id := "4", category := "Entertainment", emoji := "🎬", spent := 4500, limit := 4000, color := "bg-destructive" },
    { id := "5", category := "Healthcare", emoji := "💊", spent := 2000, limit := 5000, color := "bg-emerald" } ]

/-- Source: `INITIAL_GOALS` from the budget page. -/
def INITIAL_GOALS : List Goal :=
  [ { id := "1", title := "Emergency Fund", emoji := "🏦", saved := 150000, target := 300000, deadline := "Dec 2026" },
    { id := "2", title := "New Laptop", emoji := "💻", saved := 45000, target := 80000, deadline := "Jun 2026" },
    { id := "3", title := "Vacation Trip", emoji := "✈️", saved := 25000, target := 100000, deadline := "Oct 2026" } ]

/-! ### Page state handlers

Each `useState` setter call on `budgets`/`goals` becomes a pure function from
the previous list to the next one. -/

/-- Source: `handleSaveBudget`. When a budget is being edited the list is mapped,
replacing every entry whose `id` equals `budgetData.id`; otherwise
`budgetData` is appended (`[...prev, budgetData]`). -/
def handleSaveBudget (editingBudget : Option Budget) (prev : List Budget)
    (budgetData : Budget) : List Budget :=
  match editingBudget with
  | some _ => prev.map fun b => if b.id = budgetData.id then budgetData else b
  | none => prev ++ [budgetData]

/-- Source: `handleConfirmDeleteBudget`, `prev.filter(b => b.id !== budgetToDelete.id)`. -/
def handleConfirmDeleteBudget (budgetToDelete : Budget) (prev : List Budget) :
    List Budget :=
  prev.filter fun b => b.id != budgetToDelete.id

/-- Source: `handleSaveGoal`, same shape as `handleSaveBudget`, on goals. -/
def handleSaveGoal (editingGoal : Option Goal) (prev : List Goal)
    (goalData : Goal) : List Goal :=
  match editingGoal with
  | some _ => prev.map fun g => if g.id = goalData.id then goalData else g
  | none => prev ++ [goalData]

/-- Source: `handleConfirmDeleteGoal`, `prev.filter(g => g.id !== goalToDelete.id)`. -/
def handleConfirmDeleteGoal (goalToDelete : Goal) (prev : List Goal) :
    List Goal :=
  prev.filter fun g => g.id != goalToDelete.id

/-- Source: `handleAddSavings`. Maps the goal list, replacing the goal whose `id`
equals `goalId` by `{ ...g, saved: g.saved + amount }`. -/
def handleAddSavings (prev : List Goal) (goalId : String) (amount : ℚ) :
    List Goal :=
  prev.map fun g => if g.id = goalId then { g with saved := g.saved + amount } else g

/-! ### Computed values (recomputed at every render) -/

/-- Source: `totalBudget = budgets.reduce((sum, b) => sum + b.limit, 0)`. -/
def totalBudget (budgets : List Budget) : ℚ :=
  budgets.foldl (fun sum b => sum + b.limit) 0

/-- Source: `totalSpent = budgets.reduce((sum, b) => sum + b.spent, 0)`. -/
def totalSpent (budgets : List Budget) : ℚ :=
  budgets.foldl (fun sum b => sum + b.spent) 0

/-- Source: `totalSaved = goals.reduce((sum, g) => sum + g.saved, 0)`. -/
def totalSaved (goals : List Goal) : ℚ :=
  goals.foldl (fun sum g => sum + g.saved) 0

/-- Source: `totalTarget = goals.reduce((sum, g) => sum + g.target, 0)`. -/
def totalTarget (goals : List Goal) : ℚ :=
  goals.foldl (fun sum g => sum + g.target) 0

/-! ### Form dialogs

JavaScript truthiness helpers (see the conventions at the top of the file). -/

/-- JavaScript `x || d` on a number: `0` (and `NaN`, not modelled here) is
falsy, every other number is kept. -/
def jsOrQ (x d : ℚ) : ℚ := if x = 0 then d else x

/-- JavaScript `x || d` on a string: `""` is falsy. -/
def jsOrString (x d : String) : String := if x = "" then d else x

/-- Source: `parseFloat(field) || 0`, where `field` is a number input's value:
an empty field parses to `NaN`, which `|| 0` turns into `0`. -/
def parseFloatOr0 (field : Option ℚ) : ℚ :=
  match field with
  | none => 0
  | some q => jsOrQ q 0

/-- The form state of `BudgetFormDialog`: `category`, `emoji`, `limit`
(a number input, `Option ℚ`), `color`. -/
structure BudgetForm where
  category : String
  emoji : String
  limit : Option ℚ
  color : String
  deriving DecidableEq, Repr

/-- The form state of `GoalFormDialog`: `title`, `emoji`, `target`, `saved`
(number inputs), `deadline`. -/
structure GoalForm where
  title : String
  emoji : String
  target : Option ℚ
  saved : Option ℚ
  deadline : String
  deriving DecidableEq, Repr

/-- The `budgetData` record built by `BudgetFormDialog.handleSubmit`:
`id: budget?.id || crypto.randomUUID()`, `spent: budget?.spent || 0`,
`limit: parseFloat(limit) || 0`; `category`, `emoji`, `color` come from the
form. `freshId` stands for the `crypto.randomUUID()` result. -/
def budgetDataOf (budget : Option Budget) (freshId : String) (f : BudgetForm) :
    Budget :=
  { id := match budget with
          | some b => jsOrString b.id freshId
          | none => freshId
    category := f.category
    emoji := f.emoji
    spent := match budget with
             | some b => jsOrQ b.spent 0
             | none => 0
    limit := parseFloatOr0 f.limit
    color := f.color }

/-- The `goalData` record built by `GoalFormDialog.handleSubmit`:
`id: goal?.id || crypto.randomUUID()`, `saved: parseFloat(saved) || 0`,
`target: parseFloat(target) || 0`; `title`, `emoji`, `deadline` come from
the form. -/
def goalDataOf (goal : Option Goal) (freshId : String) (f : GoalForm) : Goal :=
  { id := match goal with
          | some g => jsOrString g.id freshId
          | none => freshId
    title := f.title
    emoji := f.emoji
    saved := parseFloatOr0 f.saved
    target := parseFloatOr0 f.target
    deadline := f.deadline }

/-- A number input's `min="0"` constraint: satisfied when the field is empty
or its value is at least 0 (an out-of-range value blocks native form
submission). -/
def minZeroOk (field : Option ℚ) : Bool :=
  match field with
  | none => true
  | some q => 0 ≤ q

/-- The `BudgetFormDialog` submission guard: the submit button is
`disabled={!category || !limit}`, and native validation further requires the
`required` fields non-empty and `limit` (type `number`, `min="0"`) in
range. Submission fires exactly when this holds. -/
def budgetSubmitOk (f : BudgetForm) : Bool :=
  f.category != "" && f.limit.isSome && minZeroOk f.limit

/-- The `GoalFormDialog` submission guard: the submit button is
`disabled={!title || !target || !deadline}`; native validation requires the
`required` fields non-empty and the `target` and `saved` number inputs
(`min="0"`) in range. -/
def goalSubmitOk (f : GoalForm) : Bool :=
  f.title != "" && f.target.isSome && f.deadline != "" &&
    minZeroOk f.target && minZeroOk f.saved

/-- The budget dialog as a whole: `onSave(budgetData)` runs only when
submission is allowed; a blocked submission yields `none`. -/
def budgetDialogSubmit (budget : Option Budget) (freshId : String)
    (f : BudgetForm) : Option Budget :=
  if budgetSubmitOk f then some (budgetDataOf budget freshId f) else none

/-- The goal dialog as a whole: `onSave(goalData)` runs only when submission
is allowed. -/
def goalDialogSubmit (goal : Option Goal) (freshId : String) (f : GoalForm) :
    Option Goal :=
  if goalSubmitOk f then some (goalDataOf goal freshId f) else none

/-! ### Progress-bar widths rendered by the page and by `AddSavingsDialog` -/

/-- Monthly-budget overview bar:
`width: Math.min((totalSpent / totalBudget) * 100, 100)%`. -/
def budgetOverviewFill (budgets : List Budget) : ℚ :=
  min (totalSpent budgets / totalBudget budgets * 100) 100

/-- Goals overview bar: `width: (totalSaved / totalTarget) * 100%`
(no `Math.min` in the source here). -/
def goalsOverviewFill (goals : List Goal) : ℚ :=
  totalSaved goals / totalTarget goals * 100

/-- Per-goal completion percentage: `(goal.saved / goal.target) * 100`. -/
def goalPercentage (g : Goal) : ℚ := g.saved / g.target * 100

/-- Per-goal progress bar: `width: Math.min(percentage, 100)%`. -/
def goalFill (g : Goal) : ℚ := min (goalPercentage g) 100

/-- The `AddSavingsDialog` preview bar:
`newPercentage = Math.min(((goal.saved + amount) / goal.target) * 100, 100)`. -/
def newPercentage (g : Goal) (amount : ℚ) : ℚ :=
  min ((g.saved + amount) / g.target * 100) 100

/-! ### The page's reachable states

`BudgetPage` holds `budgets` and `goals` in component state; every state
transition goes through one of the handlers above. Dialog-driven
transitions carry the dialog's own guard: a save comes from a submitted
form (`budgetSubmitOk`/`goalSubmitOk`), an edit or delete starts from an
item of the current list (the edit/delete buttons are rendered per item),
and add-savings starts from a goal of the list with the dialog's
`disabled={!amount || currentAmount <= 0}` guard forcing a positive
amount. -/
structure PageState where
  budgets : List Budget
  goals : List Goal
  deriving DecidableEq, Repr

/-- One budget-dialog interaction as seen by the page: when submission is
allowed the dialog calls `onSave` (= `handleSaveBudget` on the page's
list), otherwise nothing happens and the page's lists are untouched. -/
def budgetDialogStep (s : PageState) (editingBudget : Option Budget)
    (freshId : String) (f : BudgetForm) : PageState :=
  match budgetDialogSubmit editingBudget freshId f with
  | some b => { s with budgets := handleSaveBudget editingBudget s.budgets b }
  | none => s

/-- One goal-dialog interaction as seen by the page. -/
def goalDialogStep (s : PageState) (editingGoal : Option Goal)
    (freshId : String) (f : GoalForm) : PageState :=
  match goalDialogSubmit editingGoal freshId f with
  | some g => { s with goals := handleSaveGoal editingGoal s.goals g }
  | none => s

/-- States of `BudgetPage` reachable from its initial state. -/
inductive Reach : PageState → Prop
  | init : Reach ⟨INITIAL_BUDGETS, INITIAL_GOALS⟩
  | createBudget (s : PageState) (freshId : String) (f : BudgetForm)
      (hs : Reach s) (hf : budgetSubmitOk f = true) :
      Reach ⟨handleSaveBudget none s.budgets (budgetDataOf none freshId f), s.goals⟩
  | editBudget (s : PageState) (b : Budget) (freshId : String) (f : BudgetForm)
      (hs : Reach s) (hb : b ∈ s.budgets) (hf : budgetSubmitOk f = true) :
      Reach ⟨handleSaveBudget (some b) s.budgets (budgetDataOf (some b) freshId f), s.goals⟩
  | deleteBudget (s : PageState) (b : Budget) (hs : Reach s) (hb : b ∈ s.budgets) :
      Reach ⟨handleConfirmDeleteBudget b s.budgets, s.goals⟩
  | createGoal (s : PageState) (freshId : String) (f : GoalForm)
      (hs : Reach s) (hf : goalSubmitOk f = true) :
      Reach ⟨s.budgets, handleSaveGoal none s.goals (goalDataOf none freshId f)⟩
  | editGoal (s : PageState) (g : Goal) (freshId : String) (f : GoalForm)
      (hs : Reach s) (hg : g ∈ s.goals) (hf : goalSubmitOk f = true) :
      Reach ⟨s.budgets, handleSaveGoal (some g) s.goals (goalDataOf (some g) freshId f)⟩
  | deleteGoal (s : PageState) (g : Goal) (hs : Reach s) (hg : g ∈ s.goals) :
      Reach ⟨s.budgets, handleConfirmDeleteGoal g s.goals⟩
  | addSavings (s : PageState) (g : Goal) (amount : ℚ)
      (hs : Reach s) (hg : g ∈ s.goals) (ha : 0 < amount) :
      Reach ⟨s.budgets, handleAddSavings s.goals g.id amount⟩

/-! ## Helper lemmas -/

/-- A `reduce((sum, x) => sum + f x, c)` is `c` plus the sum of the mapped
list. -/
lemma foldl_add_eq_add_sum {α : Type} (f : α → ℚ) (l : List α) (c : ℚ) :
    l.foldl (fun sum a => sum + f a) c = c + (l.map f).sum := by
  induction l generalizing c with
  | nil => simp
  | cons a t ih => simp only [List.foldl_cons, ih, List.map_cons, List.sum_cons]; ring

/-- Filtering out one key from a list whose keys are pairwise distinct
removes exactly the one element carrying that key and keeps everything
else in order. -/
lemma filter_key_remove_one {α : Type} (key : α → String) (l : List α)
    (k : String) (hnd : (l.map key).Nodup) (hk : k ∈ l.map key) :
    ∃ l₁ x l₂, l = l₁ ++ x :: l₂ ∧ key x = k ∧
      l.filter (fun a => key a != k) = l₁ ++ l₂ := by
  induction l with
  | nil => simp at hk
  | cons a t ih =>
    by_cases hak : key a = k
    · refine ⟨[], a, t, rfl, hak, ?_⟩
      have hnot : key a ∉ t.map key := (List.nodup_cons.mp (by simpa using hnd)).1
      have hall : ∀ x ∈ t, (key x != k) = true := by
        intro x hx
        rw [bne_iff_ne]
        intro hxk
        exact hnot (by rw [hak, ← hxk]; exact List.mem_map_of_mem key hx)
      simp only [List.filter_cons, bne_self_eq_false, hak, List.nil_append]
      exact List.filter_eq_self.mpr hall
    · have hk' : k ∈ t.map key := by
        rcases (by simpa using hk : k = key a ∨ k ∈ t.map key) with h | h
        · exact absurd h.symm hak
        · exact h
      obtain ⟨l₁, x, l₂, rfl, hx, hf⟩ :=
        ih (List.nodup_cons.mp (by simpa using hnd)).2 hk'
      refine ⟨a :: l₁, x, l₂, rfl, hx, ?_⟩
      have : (key a != k) = true := bne_iff_ne.mpr hak
      simp [List.filter_cons, this, hf]

/-- Replacing elements by key inside `map` leaves the key list unchanged
when the replacement carries the matched key. -/
lemma map_key_of_replace {α : Type} (key : α → String) (l : List α) (b : α) :
    (l.map fun a => if key a = key b then b else a).map key = l.map key := by
  induction l with
  | nil => rfl
  | cons a t ih =>
    by_cases h : key a = key b <;> simp [h, ih]

/-! Reachability of the all-empty page state: every budget and every goal
can be deleted, one click at a time. -/

lemma reach_budgets_cleared :
    ∀ (n : ℕ) (s : PageState), s.budgets.length ≤ n → Reach s →
      Reach ⟨[], s.goals⟩ := by
  intro n
  induction n with
  | zero =>
    intro s hlen hs
    have hb : s.budgets = [] := List.eq_nil_of_length_eq_zero (Nat.le_zero.mp hlen)
    have : s = ⟨[], s.goals⟩ := by cases s; simp_all
    rw [← this]; exact hs
  | succ n ih =>
    intro s hlen hs
    cases hbs : s.budgets with
    | nil =>
      have : s = ⟨[], s.goals⟩ := by cases s; simp_all
      rw [← this]; exact hs
    | cons b rest =>
      have hb : b ∈ s.budgets := by rw [hbs]; exact List.mem_cons_self b rest
      have h2 := Reach.deleteBudget s b hs hb
      have hlen2 : (handleConfirmDeleteBudget b s.budgets).length ≤ n := by
        rw [hbs]
        simp only [handleConfirmDeleteBudget, List.filter_cons, bne_self_eq_false]
        calc (rest.filter fun x => x.id != b.id).length
            ≤ rest.length := (List.filter_sublist rest).length_le
          _ ≤ n := by
              have := hlen; rw [hbs] at this; simpa using Nat.lt_succ_iff.mp this
      exact ih ⟨handleConfirmDeleteBudget b s.budgets, s.goals⟩ hlen2 h2

lemma reach_goals_cleared :
    ∀ (n : ℕ) (s : PageState), s.goals.length ≤ n → Reach s →
      Reach ⟨s.budgets, []⟩ := by
  intro n
  induction n with
  | zero =>
    intro s hlen hs
    have hg : s.goals = [] := List.eq_nil_of_length_eq_zero (Nat.le_zero.mp hlen)
    have : s = ⟨s.budgets, []⟩ := by cases s; simp_all
    rw [← this]; exact hs
  | succ n ih =>
    intro s hlen hs
    cases hgs : s.goals with
    | nil =>
      have : s = ⟨s.budgets, []⟩ := by cases s; simp_all
      rw [← this]; exact hs
    | cons g rest =>
      have hg : g ∈ s.goals := by rw [hgs]; exact List.mem_cons_self g rest
      have h2 := Reach.deleteGoal s g hs hg
      have hlen2 : (handleConfirmDeleteGoal g s.goals).length ≤ n := by
        rw [hgs]
        simp only [handleConfirmDeleteGoal, List.filter_cons, bne_self_eq_false]
        calc (rest.filter fun x => x.id != g.id).length
            ≤ rest.length := (List.filter_sublist rest).length_le
          _ ≤ n := by
              have := hlen; rw [hgs] at this; simpa using Nat.lt_succ_iff.mp this
      exact ih ⟨s.budgets, handleConfirmDeleteGoal g s.goals⟩ hlen2 h2

/-- The page state with both lists empty is reachable from the initial
state (delete the five budgets, then the three goals). -/
lemma reach_empty_state : Reach ⟨[], []⟩ := by
  have h1 : Reach ⟨[], INITIAL_GOALS⟩ :=
    reach_budgets_cleared INITIAL_BUDGETS.length ⟨INITIAL_BUDGETS, INITIAL_GOALS⟩
      le_rfl Reach.init
  exact reach_goals_cleared INITIAL_GOALS.length ⟨[], INITIAL_GOALS⟩ le_rfl h1

/-- Sample items used to instantiate hypotheses in witness theorems. -/
def sampleBudget : Budget :=
  { id := "2", category := "Transport", emoji := "🚗", spent := 5500,
    limit := 6000, color := "bg-info" }

def sampleGoal : Goal :=
  { id := "2", title := "New Laptop", emoji := "💻", saved := 45000,
    target := 80000, deadline := "Jun 2026" }

/-! ## Claims -/

/-- C1: for every budgets (resp. goals) list with pairwise-distinct ids and
every item to delete whose id occurs in the list, confirming deletion
removes exactly one entry — the one whose id equals the item's id — and
leaves all other entries unchanged and in order. -/
theorem delete_removes_exactly_one :
    (∀ (prev : List Budget) (budgetToDelete : Budget),
      (prev.map Budget.id).Nodup → budgetToDelete.id ∈ prev.map Budget.id →
      ∃ l₁ x l₂, prev = l₁ ++ x :: l₂ ∧ x.id = budgetToDelete.id ∧
        handleConfirmDeleteBudget budgetToDelete prev = l₁ ++ l₂) ∧
    (∀ (prev : List Goal) (goalToDelete : Goal),
      (prev.map Goal.id).Nodup → goalToDelete.id ∈ prev.map Goal.id →
      ∃ l₁ x l₂, prev = l₁ ++ x :: l₂ ∧ x.id = goalToDelete.id ∧
        handleConfirmDeleteGoal goalToDelete prev = l₁ ++ l₂) :=
  ⟨fun prev t h1 h2 => filter_key_remove_one Budget.id prev t.id h1 h2,
   fun prev t h1 h2 => filter_key_remove_one Goal.id prev t.id h1 h2⟩

/-- Witness for C1 at the initial data, deleting the `Transport` budget and
the `New Laptop` goal. -/
theorem delete_removes_exactly_one_witness :
    ((INITIAL_BUDGETS.map Budget.id).Nodup ∧
      sampleBudget.id ∈ INITIAL_BUDGETS.map Budget.id ∧
      ∃ l₁ x l₂, INITIAL_BUDGETS = l₁ ++ x :: l₂ ∧ x.id = sampleBudget.id ∧
        handleConfirmDeleteBudget sampleBudget INITIAL_BUDGETS = l₁ ++ l₂) ∧
    ((INITIAL_GOALS.map Goal.id).Nodup ∧
      sampleGoal.id ∈ INITIAL_GOALS.map Goal.id ∧
      ∃ l₁ x l₂, INITIAL_GOALS = l₁ ++ x :: l₂ ∧ x.id = sampleGoal.id ∧
        handleConfirmDeleteGoal sampleGoal INITIAL_GOALS = l₁ ++ l₂) :=
  ⟨⟨by decide, by decide,
    delete_removes_exactly_one.1 INITIAL_BUDGETS sampleBudget (by decide) (by decide)⟩,
   ⟨by decide, by decide,
    delete_removes_exactly_one.2 INITIAL_GOALS sampleGoal (by decide) (by decide)⟩⟩

/-- C2: for every budgets (resp. goals) list and every edited item whose id
occurs in the list, saving the edit yields a list of the same length in
which the entry with that id is replaced by the new item, every other
entry is unchanged, and the relative order is preserved (the element at
each position is determined by the element at the same position before). -/
theorem edit_save_replaces_by_id :
    (∀ (prev : List Budget) (editingBudget budgetData : Budget),
      budgetData.id ∈ prev.map Budget.id →
      (handleSaveBudget (some editingBudget) prev budgetData).length = prev.length ∧
      (∀ i : ℕ, (handleSaveBudget (some editingBudget) prev budgetData)[i]? =
        (prev[i]?).map fun a => if a.id = budgetData.id then budgetData else a) ∧
      (∃ (i : ℕ) (a : Budget), prev[i]? = some a ∧ a.id = budgetData.id ∧
        (handleSaveBudget (some editingBudget) prev budgetData)[i]? = some budgetData)) ∧
    (∀ (prev : List Goal) (editingGoal goalData : Goal),
      goalData.id ∈ prev.map Goal.id →
      (handleSaveGoal (some editingGoal) prev goalData).length = prev.length ∧
      (∀ i : ℕ, (handleSaveGoal (some editingGoal) prev goalData)[i]? =
        (prev[i]?).map fun a => if a.id = goalData.id then goalData else a) ∧
      (∃ (i : ℕ) (a : Goal), prev[i]? = some a ∧ a.id = goalData.id ∧
        (handleSaveGoal (some editingGoal) prev goalData)[i]? = some goalData)) := by
  constructor
  · intro prev e b hmem
    refine ⟨List.length_map prev _, fun i => List.getElem?_map .., ?_⟩
    obtain ⟨a, ha, haid⟩ := List.mem_map.mp hmem
    obtain ⟨i, hi⟩ := List.mem_iff_getElem?.mp ha
    refine ⟨i, a, hi, haid, ?_⟩
    rw [handleSaveBudget, List.getElem?_map, hi, Option.map_some', if_pos haid]
  · intro prev e g hmem
    refine ⟨List.length_map prev _, fun i => List.getElem?_map .., ?_⟩
    obtain ⟨a, ha, haid⟩ := List.mem_map.mp hmem
    obtain ⟨i, hi⟩ := List.mem_iff_getElem?.mp ha
    refine ⟨i, a, hi, haid, ?_⟩
    rw [handleSaveGoal, List.getElem?_map, hi, Option.map_some', if_pos haid]

/-- Witness for C2: editing the `Transport` budget (limit 7000) and the
`New Laptop` goal (target 90000) at the initial data. -/
theorem edit_save_replaces_by_id_witness :
    ((sampleBudget.id ∈ INITIAL_BUDGETS.map Budget.id) ∧
      ((handleSaveBudget (some sampleBudget) INITIAL_BUDGETS
          { sampleBudget with limit := 7000 }).length = INITIAL_BUDGETS.length ∧
        (∀ i : ℕ, (handleSaveBudget (some sampleBudget) INITIAL_BUDGETS
            { sampleBudget with limit := 7000 })[i]? =
          (INITIAL_BUDGETS[i]?).map fun a =>
            if a.id = ({ sampleBudget with limit := 7000 } : Budget).id
            then { sampleBudget with limit := 7000 } else a) ∧
        (∃ (i : ℕ) (a : Budget), INITIAL_BUDGETS[i]? = some a ∧
          a.id = ({ sampleBudget with limit := 7000 } : Budget).id ∧
          (handleSaveBudget (some sampleBudget) INITIAL_BUDGETS
            { sampleBudget with limit := 7000 })[i]? =
            some { sampleBudget with limit := 7000 }))) ∧
    ((sampleGoal.id ∈ INITIAL_GOALS.map Goal.id) ∧
      ((handleSaveGoal (some sampleGoal) INITIAL_GOALS
          { sampleGoal with target := 90000 }).length = INITIAL_GOALS.length ∧
        (∀ i : ℕ, (handleSaveGoal (some sampleGoal) INITIAL_GOALS
            { sampleGoal with target := 90000 })[i]? =
          (INITIAL_GOALS[i]?).map fun a =>
            if a.id = ({ sampleGoal with target := 90000 } : Goal).id
            then { sampleGoal with target := 90000 } else a) ∧
        (∃ (i : ℕ) (a : Goal), INITIAL_GOALS[i]? = some a ∧
          a.id = ({ sampleGoal with target := 90000 } : Goal).id ∧
          (handleSaveGoal (some sampleGoal) INITIAL_GOALS
            { sampleGoal with target := 90000 })[i]? =
            some { sampleGoal with target := 90000 }))) :=
  ⟨⟨by decide, edit_save_replaces_by_id.1 INITIAL_BUDGETS sampleBudget
      { sampleBudget with limit := 7000 } (by decide)⟩,
   ⟨by decide, edit_save_replaces_by_id.2 INITIAL_GOALS sampleGoal
      { sampleGoal with target := 90000 } (by decide)⟩⟩

/-- C3: for every goals list, every goal id present in the list and every
amount, add-savings yields a list in which the goal with that id has
`saved` equal to its previous `saved` plus the amount — an exact addition,
with no rounding, capping or other adjustment — and every other goal is
unchanged. -/
theorem add_savings_increases_saved_exactly :
    ∀ (prev : List Goal) (goalId : String) (amount : ℚ),
      goalId ∈ prev.map Goal.id →
      (handleAddSavings prev goalId amount).length = prev.length ∧
      (∀ i : ℕ, (handleAddSavings prev goalId amount)[i]? =
        (prev[i]?).map fun g =>
          if g.id = goalId then { g with saved := g.saved + amount } else g) ∧
      (∃ (i : ℕ) (g : Goal), prev[i]? = some g ∧ g.id = goalId ∧
        (handleAddSavings prev goalId amount)[i]? =
          some { g with saved := g.saved + amount }) := by
  intro prev goalId amount hmem
  refine ⟨List.length_map prev _, fun i => List.getElem?_map .., ?_⟩
  obtain ⟨g, hg, hgid⟩ := List.mem_map.mp hmem
  obtain ⟨i, hi⟩ := List.mem_iff_getElem?.mp hg
  refine ⟨i, g, hi, hgid, ?_⟩
  rw [handleAddSavings, List.getElem?_map, hi, Option.map_some', if_pos hgid]

/-- Witness for C3: adding 5000 to the `New Laptop` goal at the initial
data. -/
theorem add_savings_increases_saved_exactly_witness :
    ("2" ∈ INITIAL_GOALS.map Goal.id) ∧
    ((handleAddSavings INITIAL_GOALS "2" 5000).length = INITIAL_GOALS.length ∧
      (∀ i : ℕ, (handleAddSavings INITIAL_GOALS "2" 5000)[i]? =
        (INITIAL_GOALS[i]?).map fun g =>
          if g.id = "2" then { g with saved := g.saved + 5000 } else g) ∧
      (∃ (i : ℕ) (g : Goal), INITIAL_GOALS[i]? = some g ∧ g.id = "2" ∧
        (handleAddSavings INITIAL_GOALS "2" 5000)[i]? =
          some { g with saved := g.saved + 5000 })) :=
  ⟨by decide, add_savings_increases_saved_exactly INITIAL_GOALS "2" 5000 (by decide)⟩

/-- C8: at every render, the displayed totals equal the arithmetic sums
over the current lists: `totalBudget` is the sum of `limit` over the
budgets, `totalSpent` the sum of `spent`, `totalSaved` the sum of `saved`
over the goals, `totalTarget` the sum of `target`. -/
theorem render_totals_are_sums :
    ∀ (budgets : List Budget) (goals : List Goal),
      totalBudget budgets = (budgets.map Budget.limit).sum ∧
      totalSpent budgets = (budgets.map Budget.spent).sum ∧
      totalSaved goals = (goals.map Goal.saved).sum ∧
      totalTarget goals = (goals.map Goal.target).sum := by
  intro budgets goals
  refine ⟨?_, ?_, ?_, ?_⟩ <;>
    simpa using foldl_add_eq_add_sum _ _ 0

/-- Sample form states used in witnesses and counterexamples. -/
def sampleBudgetForm : BudgetForm :=
  { category := "Gym", emoji := "💪", limit := some 2000, color := "bg-emerald" }

def sampleGoalForm : GoalForm :=
  { title := "New Phone", emoji := "📱", target := some 60000, saved := some 0,
    deadline := "Mar 2027" }

def emptyCategoryForm : BudgetForm :=
  { category := "", emoji := "🍔", limit := some 1000, color := "bg-warning" }

def emptyTitleForm : GoalForm :=
  { title := "", emoji := "🏦", target := some 1000, saved := some 0,
    deadline := "Dec 2026" }

def zeroLimitForm : BudgetForm :=
  { category := "Food", emoji := "🍔", limit := some 0, color := "bg-warning" }

def zeroTargetForm : GoalForm :=
  { title := "Trip", emoji := "✈️", target := some 0, saved := some 0,
    deadline := "Dec 2026" }

/-- C4, counterexample: a budget form whose `limit` field holds `"0"` (and a
goal form whose `target` holds `"0"`) passes every check the dialog makes —
the fields are non-empty and satisfy `min="0"` — yet the item handed to
`onSave` has `limit = 0` (resp. `target = 0`), which is not positive. -/
theorem form_zero_amount_passes_validation :
    budgetDialogSubmit none "new-budget-id" zeroLimitForm =
      some { id := "new-budget-id", category := "Food", emoji := "🍔",
             spent := 0, limit := 0, color := "bg-warning" } ∧
    goalDialogSubmit none "new-goal-id" zeroTargetForm =
      some { id := "new-goal-id", title := "Trip", emoji := "✈️",
             saved := 0, target := 0, deadline := "Dec 2026" } ∧
    ¬ (∀ b : Budget,
        budgetDialogSubmit none "new-budget-id" zeroLimitForm = some b →
        0 < b.limit) ∧
    ¬ (∀ g : Goal,
        goalDialogSubmit none "new-goal-id" zeroTargetForm = some g →
        0 < g.target) := by
  have hb : budgetDialogSubmit none "new-budget-id" zeroLimitForm =
      some { id := "new-budget-id", category := "Food", emoji := "🍔",
             spent := 0, limit := 0, color := "bg-warning" } := by decide
  have hg : goalDialogSubmit none "new-goal-id" zeroTargetForm =
      some { id := "new-goal-id", title := "Trip", emoji := "✈️",
             saved := 0, target := 0, deadline := "Dec 2026" } := by decide
  exact ⟨hb, hg, fun h => absurd (h _ hb) (by decide),
    fun h => absurd (h _ hg) (by decide)⟩

/-- C4, amended: every item the dialogs hand to `onSave` has a non-negative
(not necessarily positive) `limit` resp. `target`: the dialogs check only
that required fields are non-empty and that the number inputs respect
`min="0"`. -/
theorem form_validation_ensures_nonneg :
    (∀ (budget : Option Budget) (freshId : String) (f : BudgetForm) (b : Budget),
      budgetDialogSubmit budget freshId f = some b → 0 ≤ b.limit) ∧
    (∀ (goal : Option Goal) (freshId : String) (f : GoalForm) (g : Goal),
      goalDialogSubmit goal freshId f = some g → 0 ≤ g.target) := by
  constructor
  · intro budget freshId f b hb
    by_cases hok : budgetSubmitOk f = true
    · rw [budgetDialogSubmit, if_pos hok] at hb
      obtain rfl : budgetDataOf budget freshId f = b := Option.some.inj hb
      have h2 : minZeroOk f.limit = true := by
        simp only [budgetSubmitOk, Bool.and_eq_true] at hok
        exact hok.2
      show 0 ≤ parseFloatOr0 f.limit
      cases hfl : f.limit with
      | none => simp [parseFloatOr0]
      | some q =>
        have hq : (0:ℚ) ≤ q := by
          rw [hfl] at h2
          simpa [minZeroOk] using h2
        by_cases h0 : q = 0
        · simp [parseFloatOr0, jsOrQ, h0]
        · simpa [parseFloatOr0, jsOrQ, h0] using hq
    · rw [budgetDialogSubmit, if_neg hok] at hb
      cases hb
  · intro goal freshId f g hg
    by_cases hok : goalSubmitOk f = true
    · rw [goalDialogSubmit, if_pos hok] at hg
      obtain rfl : goalDataOf goal freshId f = g := Option.some.inj hg
      have h2 : minZeroOk f.target = true := by
        simp only [goalSubmitOk, Bool.and_eq_true] at hok
        exact hok.1.2
      show 0 ≤ parseFloatOr0 f.target
      cases hft : f.target with
      | none => simp [parseFloatOr0]
      | some q =>
        have hq : (0:ℚ) ≤ q := by
          rw [hft] at h2
          simpa [minZeroOk] using h2
        by_cases h0 : q = 0
        · simp [parseFloatOr0, jsOrQ, h0]
        · simpa [parseFloatOr0, jsOrQ, h0] using hq
    · rw [goalDialogSubmit, if_neg hok] at hg
      cases hg

/-- Witness for the amended C4 at concrete submitted forms. -/
theorem form_validation_ensures_nonneg_witness :
    (budgetDialogSubmit none "new-budget-id" sampleBudgetForm =
      some (budgetDataOf none "new-budget-id" sampleBudgetForm) ∧
      0 ≤ (budgetDataOf none "new-budget-id" sampleBudgetForm).limit) ∧
    (goalDialogSubmit none "new-goal-id" sampleGoalForm =
      some (goalDataOf none "new-goal-id" sampleGoalForm) ∧
      0 ≤ (goalDataOf none "new-goal-id" sampleGoalForm).target) :=
  ⟨⟨by decide,
    form_validation_ensures_nonneg.1 none "new-budget-id" sampleBudgetForm _
      (by decide)⟩,
   ⟨by decide,
    form_validation_ensures_nonneg.2 none "new-goal-id" sampleGoalForm _
      (by decide)⟩⟩

/-- C5: a form with an empty required field (category or limit for budgets;
title, target or deadline for goals) cannot be submitted: `onSave` is not
invoked and the page's lists are unchanged. -/
theorem empty_required_field_blocks_save :
    (∀ (s : PageState) (editingBudget : Option Budget) (freshId : String)
        (f : BudgetForm),
      f.category = "" ∨ f.limit = none →
      budgetDialogSubmit editingBudget freshId f = none ∧
      budgetDialogStep s editingBudget freshId f = s) ∧
    (∀ (s : PageState) (editingGoal : Option Goal) (freshId : String)
        (f : GoalForm),
      f.title = "" ∨ f.target = none ∨ f.deadline = "" →
      goalDialogSubmit editingGoal freshId f = none ∧
      goalDialogStep s editingGoal freshId f = s) := by
  constructor
  · intro s editingBudget freshId f h
    have hok : budgetSubmitOk f = false := by
      rcases h with h | h
      · simp [budgetSubmitOk, h]
      · simp [budgetSubmitOk, h]
    constructor
    · simp [budgetDialogSubmit, hok]
    · simp [budgetDialogStep, budgetDialogSubmit, hok]
  · intro s editingGoal freshId f h
    have hok : goalSubmitOk f = false := by
      rcases h with h | h | h
      · simp [goalSubmitOk, h]
      · simp [goalSubmitOk, h]
      · simp [goalSubmitOk, h]
    constructor
    · simp [goalDialogSubmit, hok]
    · simp [goalDialogStep, goalDialogSubmit, hok]

/-- Witness for C5: an empty category name (resp. empty title) blocks the
save on the initial page state. -/
theorem empty_required_field_blocks_save_witness :
    ((emptyCategoryForm.category = "" ∨ emptyCategoryForm.limit = none) ∧
      budgetDialogSubmit none "new-budget-id" emptyCategoryForm = none ∧
      budgetDialogStep ⟨INITIAL_BUDGETS, INITIAL_GOALS⟩ none "new-budget-id"
        emptyCategoryForm = ⟨INITIAL_BUDGETS, INITIAL_GOALS⟩) ∧
    ((emptyTitleForm.title = "" ∨ emptyTitleForm.target = none ∨
        emptyTitleForm.deadline = "") ∧
      goalDialogSubmit none "new-goal-id" emptyTitleForm = none ∧
      goalDialogStep ⟨INITIAL_BUDGETS, INITIAL_GOALS⟩ none "new-goal-id"
        emptyTitleForm = ⟨INITIAL_BUDGETS, INITIAL_GOALS⟩) :=
  ⟨⟨Or.inl rfl,
    empty_required_field_blocks_save.1 ⟨INITIAL_BUDGETS, INITIAL_GOALS⟩ none
      "new-budget-id" emptyCategoryForm (Or.inl rfl)⟩,
   ⟨Or.inl rfl,
    empty_required_field_blocks_save.2 ⟨INITIAL_BUDGETS, INITIAL_GOALS⟩ none
      "new-goal-id" emptyTitleForm (Or.inl rfl)⟩⟩

/-- The goals-overview width after adding ₹300000 to the Emergency Fund:
total saved 520000 over total target 480000, times 100. -/
lemma goalsOverviewFill_after_add :
    goalsOverviewFill (handleAddSavings INITIAL_GOALS "1" 300000) = 325 / 3 := by
  simp [goalsOverviewFill, totalSaved, totalTarget, handleAddSavings,
    INITIAL_GOALS]
  norm_num

/-- C6, counterexample: after adding ₹300000 of savings to the Emergency
Fund goal — a reachable action — the goals-overview bar width
`(totalSaved / totalTarget) * 100` evaluates to 325/3 ≈ 108.3%, above
100%: the source computes this width without `Math.min`, so it is not
clamped. -/
theorem goals_overview_fill_exceeds_100 :
    goalsOverviewFill (handleAddSavings INITIAL_GOALS "1" 300000) = 325 / 3 ∧
    ¬ goalsOverviewFill (handleAddSavings INITIAL_GOALS "1" 300000) ≤ 100 := by
  refine ⟨goalsOverviewFill_after_add, ?_⟩
  rw [goalsOverviewFill_after_add]
  norm_num

/-- C6, amended: `saved` is unbounded (add-savings performs plain addition,
ignoring `target`), the per-goal bar and the add-savings preview bar are
clamped to at most 100%, but the goals-overview bar is the raw ratio and
exceeds 100% as soon as total saved exceeds total target. -/
theorem progress_fill_clamping :
    (∀ g : Goal, goalFill g ≤ 100) ∧
    (∀ (g : Goal) (amount : ℚ), newPercentage g amount ≤ 100) ∧
    (∀ (g : Goal) (amount : ℚ),
      handleAddSavings [g] g.id amount = [{ g with saved := g.saved + amount }]) ∧
    100 < goalsOverviewFill (handleAddSavings INITIAL_GOALS "1" 300000) := by
  refine ⟨fun g => min_le_right _ _, fun g amount => min_le_right _ _,
    fun g amount => by simp [handleAddSavings], ?_⟩
  rw [goalsOverviewFill_after_add]
  norm_num

/-- Add-savings keeps every goal's id. -/
lemma map_id_handleAddSavings (prev : List Goal) (goalId : String) (amount : ℚ) :
    (handleAddSavings prev goalId amount).map Goal.id = prev.map Goal.id := by
  induction prev with
  | nil => rfl
  | cons g t ih =>
    simp only [handleAddSavings, List.map_cons] at ih ⊢
    by_cases h : g.id = goalId <;> simp [h, ih]

/-- A fresh budget as produced by the create dialog, with an id not in the
initial list. -/
def sampleNewBudget : Budget :=
  { id := "6", category := "Misc", emoji := "🎮", spent := 0, limit := 1000,
    color := "bg-info" }

/-- C7: id uniqueness within a list is preserved by every operation —
create (under the precondition that the fresh id is not already present),
edit-save, delete, and add-savings — on budgets and on goals alike. -/
theorem id_uniqueness_preserved :
    (∀ (prev : List Budget) (budgetData : Budget),
      (prev.map Budget.id).Nodup → budgetData.id ∉ prev.map Budget.id →
      ((handleSaveBudget none prev budgetData).map Budget.id).Nodup) ∧
    (∀ (prev : List Budget) (editingBudget budgetData : Budget),
      (prev.map Budget.id).Nodup →
      ((handleSaveBudget (some editingBudget) prev budgetData).map Budget.id).Nodup) ∧
    (∀ (prev : List Budget) (budgetToDelete : Budget),
      (prev.map Budget.id).Nodup →
      ((handleConfirmDeleteBudget budgetToDelete prev).map Budget.id).Nodup) ∧
    (∀ (prev : List Goal) (goalData : Goal),
      (prev.map Goal.id).Nodup → goalData.id ∉ prev.map Goal.id →
      ((handleSaveGoal none prev goalData).map Goal.id).Nodup) ∧
    (∀ (prev : List Goal) (editingGoal goalData : Goal),
      (prev.map Goal.id).Nodup →
      ((handleSaveGoal (some editingGoal) prev goalData).map Goal.id).Nodup) ∧
    (∀ (prev : List Goal) (goalToDelete : Goal),
      (prev.map Goal.id).Nodup →
      ((handleConfirmDeleteGoal goalToDelete prev).map Goal.id).Nodup) ∧
    (∀ (prev : List Goal) (goalId : String) (amount : ℚ),
      (prev.map Goal.id).Nodup →
      ((handleAddSavings prev goalId amount).map Goal.id).Nodup) := by
  refine ⟨?_, ?_, ?_, ?_, ?_, ?_, ?_⟩
  · intro prev b h1 h2
    show ((prev ++ [b]).map Budget.id).Nodup
    rw [List.map_append]
    simp [List.nodup_append]
    exact ⟨h1, by simpa using h2⟩
  · intro prev e b h1
    show ((prev.map fun a => if a.id = b.id then b else a).map Budget.id).Nodup
    rw [map_key_of_replace Budget.id prev b]
    exact h1
  · intro prev t h1
    exact h1.sublist ((List.filter_sublist prev).map Budget.id)
  · intro prev g h1 h2
    show ((prev ++ [g]).map Goal.id).Nodup
    rw [List.map_append]
    simp [List.nodup_append]
    exact ⟨h1, by simpa using h2⟩
  · intro prev e g h1
    show ((prev.map fun a => if a.id = g.id then g else a).map Goal.id).Nodup
    rw [map_key_of_replace Goal.id prev g]
    exact h1
  · intro prev t h1
    exact h1.sublist ((List.filter_sublist prev).map Goal.id)
  · intro prev goalId amount h1
    rw [map_id_handleAddSavings]
    exact h1

/-- Witness for C7 at the initial data: create a fresh budget, edit and
delete the Transport budget, add savings to the New Laptop goal. -/
theorem id_uniqueness_preserved_witness :
    (INITIAL_BUDGETS.map Budget.id).Nodup ∧
    sampleNewBudget.id ∉ INITIAL_BUDGETS.map Budget.id ∧
    ((handleSaveBudget none INITIAL_BUDGETS sampleNewBudget).map Budget.id).Nodup ∧
    ((handleSaveBudget (some sampleBudget) INITIAL_BUDGETS sampleBudget).map Budget.id).Nodup ∧
    ((handleConfirmDeleteBudget sampleBudget INITIAL_BUDGETS).map Budget.id).Nodup ∧
    ((handleAddSavings INITIAL_GOALS "2" 500).map Goal.id).Nodup :=
  ⟨by decide, by decide,
   id_uniqueness_preserved.1 INITIAL_BUDGETS sampleNewBudget (by decide) (by decide),
   id_uniqueness_preserved.2.1 INITIAL_BUDGETS sampleBudget sampleBudget (by decide),
   id_uniqueness_preserved.2.2.1 INITIAL_BUDGETS sampleBudget (by decide),
   id_uniqueness_preserved.2.2.2.2.2.2 INITIAL_GOALS "2" 500 (by decide)⟩

/-- C9: editing an existing budget through the dialog is frame-preserving
on the fields the form does not expose: the record handed to `onSave`
keeps the original budget's `id` and `spent` (for every reachable budget:
the page's budgets always carry a non-empty id). -/
theorem edit_budget_preserves_id_and_spent :
    ∀ (budget : Budget) (freshId : String) (f : BudgetForm),
      budget.id ≠ "" →
      (budgetDataOf (some budget) freshId f).id = budget.id ∧
      (budgetDataOf (some budget) freshId f).spent = budget.spent := by
  intro b freshId f h
  constructor
  · simp [budgetDataOf, jsOrString, h]
  · by_cases hs : b.spent = 0 <;> simp [budgetDataOf, jsOrQ, hs]

/-- Witness for C9: editing the Transport budget with the sample form. -/
theorem edit_budget_preserves_id_and_spent_witness :
    sampleBudget.id ≠ "" ∧
    ((budgetDataOf (some sampleBudget) "fresh-id" sampleBudgetForm).id =
        sampleBudget.id ∧
      (budgetDataOf (some sampleBudget) "fresh-id" sampleBudgetForm).spent =
        sampleBudget.spent) :=
  ⟨by decide,
   edit_budget_preserves_id_and_spent sampleBudget "fresh-id" sampleBudgetForm
     (by decide)⟩

/-- C10, counterexample: the state with both lists empty is reachable (by
deleting every budget and every goal), and there `totalBudget = 0` and
`totalTarget = 0` — so it is not true that the overview divisors are
nonzero in every reachable state. -/
theorem empty_state_reachable_zero_divisors :
    Reach { budgets := [], goals := [] } ∧
    totalBudget [] = 0 ∧ totalTarget [] = 0 ∧
    ¬ (∀ s : PageState, Reach s →
        totalBudget s.budgets ≠ 0 ∧ totalTarget s.goals ≠ 0) :=
  ⟨reach_empty_state, rfl, rfl,
   fun h => (h { budgets := [], goals := [] } reach_empty_state).1 rfl⟩

/-- C10, amended: the overview divisors are nonzero in the initial state,
but not in every reachable state: deleting every item yields a reachable
state in which both `totalBudget` and `totalTarget` are 0 while the page
still computes `totalSpent / totalBudget` and `totalSaved / totalTarget`
unguarded. -/
theorem overview_divisors_nonzero_only_initially :
    totalBudget INITIAL_BUDGETS ≠ 0 ∧ totalTarget INITIAL_GOALS ≠ 0 ∧
    Reach { budgets := [], goals := [] } ∧
    totalBudget [] = 0 ∧ totalTarget [] = 0 := by
  refine ⟨?_, ?_, reach_empty_state, rfl, rfl⟩
  · simp [totalBudget, INITIAL_BUDGETS]
    norm_num
  · simp [totalTarget, INITIAL_GOALS]
    norm_num

end FinGuide
